import Mathlib

/-!
# Verification of the ci_bot build-automation driver

A shallow embedding of `src/ci_bot.py`.  Pure string manipulation
(Python `str.strip`, `str.split('=', 1)`, substring tests, the progress
regular expression) is translated to executable functions on `List Char`
and `String`; the top-level driver `main` is translated to a function
`mainRun` from an explicit input record (`World`) to the list of
network/subprocess events the driver performs plus its exit code.
Filesystem-only operations of the driver (directory cleaning, residual
file removal, staging-folder creation) perform no network or subprocess
call and are not tracked as events.  Characters are treated as ASCII for
the digit class of the progress pattern.
-/

/-! ## Python string primitives -/

/-- The characters Python `str.strip()` removes (ASCII whitespace). -/
def isPySpace (c : Char) : Bool :=
  c = ' ' || c = '\t' || c = '\n' || c = '\r' || c = Char.ofNat 11 || c = Char.ofNat 12

/-- Remove the characters satisfying `p` from both ends of a list, as
Python `str.strip` does. -/
def stripBoth (p : Char → Bool) (s : List Char) : List Char :=
  ((s.dropWhile p).reverse.dropWhile p).reverse

/-- Python `str.strip()` (no argument): trim whitespace from both ends. -/
def pyStrip (s : String) : String :=
  String.mk (stripBoth isPySpace s.data)

/-- Python `str.strip(chars)`: remove every leading and trailing character
that occurs in `cs`, regardless of pairing. -/
def pyStripChars (cs : List Char) (s : String) : String :=
  String.mk (stripBoth (fun c => cs.contains c) s.data)

/-- Python `str.lower()` (ASCII). -/
def pyLower (s : String) : String :=
  String.mk (s.data.map Char.toLower)

/-- Decides, as `isPrefixList p s`, whether `p` is a prefix of `s`. -/
def isPrefixList : List Char → List Char → Bool
  | [], _ => true
  | _ :: _, [] => false
  | p :: ps, c :: cs => p = c && isPrefixList ps cs

/-- Python `pat in s`: substring containment. -/
def containsSub (pat : List Char) : List Char → Bool
  | [] => pat.isEmpty
  | c :: cs => isPrefixList pat (c :: cs) || containsSub pat cs

/-- Python `s.endswith(pat)`. -/
def suffixIs (pat s : List Char) : Bool :=
  isPrefixList pat.reverse s.reverse

/-- Python `line.split('=', 1)` on a line known to contain `'='`:
the part before the first `'='` and the part after it. -/
def splitFirstEq : List Char → List Char × List Char
  | [] => ([], [])
  | c :: cs =>
    if c = '=' then ([], cs)
    else
      let r := splitFirstEq cs
      (c :: r.1, r.2)

/-- The single-quote character. -/
def singleQuote : Char := Char.ofNat 39

/-! ## Configuration loader (`load_env`, lines 37-58) -/

/-- A configuration value: strings, with `true`/`false` coerced to booleans. -/
inductive Value
  | str (s : String)
  | bool (b : Bool)
deriving DecidableEq, Repr

/-- Boolean coercion of `load_env` (lines 52-55): a value equal
case-insensitively to `true` or `false` becomes a boolean. -/
def pyCoerce (s : String) : Value :=
  if pyLower s = "true" then Value.bool true
  else if pyLower s = "false" then Value.bool false
  else Value.str s

/-- One iteration of the `load_env` line loop (lines 44-57): skip blank
lines and lines whose stripped form starts with `#`; for lines containing
`'='`, split on the first `'='`, strip whitespace from key and value,
strip `\x22` characters and then single-quote characters from both ends of
the value, and coerce booleans. -/
def parseLine (line : String) : Option (String × Value) :=
  let stripped := pyStrip line
  if (match stripped.data with | '#' :: _ => true | _ => false) || stripped = "" then
    none
  else if line.data.contains '=' then
    let kv := splitFirstEq line.data
    some (pyStrip (String.mk kv.1),
      pyCoerce (pyStripChars [singleQuote] (pyStripChars ['"'] (pyStrip (String.mk kv.2)))))
  else
    none

/-- The loader `load_env` (lines 37-58) on the list of lines of the config file:
the resulting key/value assignments in file order (later assignments to
the same key shadow earlier ones through `configGet`). -/
def load_env (lines : List String) : List (String × Value) :=
  lines.foldl
    (fun cfg line =>
      match parseLine line with
      | none => cfg
      | some kv => cfg ++ [kv])
    []

/-- Python dict lookup on the parsed configuration: the last assignment
to a key wins. -/
def configGet (cfg : List (String × Value)) (k : String) : Option Value :=
  cfg.reverse.lookup k

/-- Python truthiness of a configuration value: `False` and the empty
string are falsy. -/
def pyTruthy : Value → Bool
  | Value.str s => !(s == "")
  | Value.bool b => b

/-- Python `str(...)` of a configuration value, as used in f-strings. -/
def pyStr : Value → String
  | Value.str s => s
  | Value.bool b => if b then "True" else "False"

/-- The entry `CONFIG[key]` rendered as a string (used for `DEVICE` and `VARIANT`
after validation has ensured the keys are present). -/
def getStr (cfg : List (String × Value)) (k : String) : String :=
  match configGet cfg k with
  | some v => pyStr v
  | none => ""

/-- The required configuration keys (line 199). -/
def requiredKeys : List String := ["DEVICE", "VARIANT", "BOT_TOKEN", "CHAT_ID"]

/-- The validation test of lines 200-201: `key not in CONFIG or not CONFIG[key]`. -/
def keyMissing (cfg : List (String × Value)) (k : String) : Bool :=
  match configGet cfg k with
  | none => true
  | some v => !(pyTruthy v)

/-- The shutdown gate of line 415: `CONFIG.get('POWEROFF')` is truthy. -/
def poweroffSet (cfg : List (String × Value)) : Bool :=
  match configGet cfg "POWEROFF" with
  | none => false
  | some v => pyTruthy v

/-! ## Progress extractor (`fetch_progress`, lines 161-176) -/

/-- Take the maximal leading run of decimal digits. -/
def takeDigits : List Char → List Char × List Char
  | [] => ([], [])
  | c :: cs =>
    if c.isDigit then
      let r := takeDigits cs
      (c :: r.1, r.2)
    else
      ([], c :: cs)

/-- Match the pattern `(\d+%) (\d+/\d+)` anchored at the start of `s`,
returning the three digit groups (percent digits, completed digits,
total digits).  Greedy `\d+` before a non-digit literal admits no
backtracking, so the maximal digit run is the only candidate. -/
def matchAt (s : List Char) : Option (List Char × List Char × List Char) :=
  match takeDigits s with
  | ([], _) => none
  | (c1 :: ds1, '%' :: ' ' :: r2) =>
    match takeDigits r2 with
    | ([], _) => none
    | (c2 :: ds2, '/' :: r4) =>
      match takeDigits r4 with
      | ([], _) => none
      | (c3 :: ds3, _) => some (c1 :: ds1, c2 :: ds2, c3 :: ds3)
    | _ => none
  | _ => none

/-- Python `re.search` for the pattern `(\d+%) (\d+/\d+)`: try every start
position from the left and return the groups of the first match. -/
def searchPat : List Char → Option (List Char × List Char × List Char)
  | [] => none
  | c :: cs =>
    match matchAt (c :: cs) with
    | some g => some g
    | none => searchPat cs

/-- The line filter of line 170: the line contains `ninja` or a `%`. -/
def lineGate (line : String) : Bool :=
  containsSub "ninja".data line.data || line.data.contains '%'

/-- Line 173: `f"{match.group(1)} ({match.group(2)})"` where group 1 is
`<digits>%` and group 2 is `<digits>/<digits>`. -/
def formatProgress (d1 d2 d3 : List Char) : String :=
  String.mk (d1 ++ '%' :: ' ' :: '(' :: (d2 ++ '/' :: d3) ++ [')'])

/-- The loop of lines 169-173 over the reversed lines, falling through to
the sentinel of line 176. -/
def scanRev : List String → String
  | [] => "Initializing..."
  | line :: rest =>
    if lineGate line then
      match searchPat line.data with
      | some g => formatProgress g.1 g.2.1 g.2.2
      | none => scanRev rest
    else
      scanRev rest

/-- The state of the log file as `fetch_progress` observes it: missing,
present but failing to read (the `except` path), or readable content. -/
inductive FileState
  | absent
  | unreadable
  | content (lines : List String)
deriving DecidableEq, Repr

/-- The extractor `fetch_progress` (lines 161-176): `None` when the path does not
exist, the sentinel when reading fails, otherwise the backward scan. -/
def fetch_progress (st : FileState) : Option String :=
  match st with
  | FileState.absent => none
  | FileState.unreadable => some "Initializing..."
  | FileState.content lines => some (scanRev lines.reverse)

/-! ## Managed-remote upload adapter (`upload_rclone`, lines 150-159) -/

/-- The `upload_rclone` observable result, as a function of the copy step
exit code, the link step exit code and the link step standard output.
The copy step runs with `check=True`, so a non-zero exit raises
`CalledProcessError` and the handler returns the fixed failure string;
the link step runs unchecked and its trimmed stdout is returned
regardless of its exit code. -/
def upload_rclone (copyExit : Nat) (linkExit : Nat) (linkOut : String) : String :=
  if copyExit ≠ 0 then "Rclone Upload Failed"
  else pyStrip linkOut

example : upload_rclone 0 23 " url " = "url" := by decide
example : upload_rclone 5 0 "url" = "Rclone Upload Failed" := by decide

/-! ## Artifact selection (lines 338-352) -/

/-- Line 343: the name contains `ota` or `target_files` case-insensitively. -/
def excludedName (name : String) : Bool :=
  containsSub "ota".data (pyLower name).data
    || containsSub "target_files".data (pyLower name).data

/-- Lines 320 and 338: the files of the device output directory whose
name contains the device identifier and ends with `.zip`.  Each file is
a name paired with its size in bytes. -/
def artifactFiles (listing : List (String × Nat)) (device : String) :
    List (String × Nat) :=
  listing.filter (fun f => containsSub device.data f.1.data && suffixIs ".zip".data f.1.data)

/-- Line 343: candidates for the main artifact. -/
def mainCandidates (files : List (String × Nat)) : List (String × Nat) :=
  files.filter (fun f => !(excludedName f.1))

/-- Stable descending insertion by size: an element moves before `y`
only when strictly larger, matching the stability of Python `sort` with
`reverse=True`. -/
def insertDesc (x : String × Nat) : List (String × Nat) → List (String × Nat)
  | [] => [x]
  | y :: ys => if y.2 < x.2 then x :: y :: ys else y :: insertDesc x ys

/-- Python `files.sort(key=getsize, reverse=True)` (lines 346 and 349) as a
stable descending insertion sort. -/
def sortSizeDesc (l : List (String × Nat)) : List (String × Nat) :=
  l.foldl (fun acc x => insertDesc x acc) []

/-- Lines 343-350: prefer the largest non-excluded candidate; if every
candidate is excluded, take the largest candidate overall.  `none` only
when `files` is empty (in which case line 341 raises instead). -/
def select_rom (files : List (String × Nat)) : Option (String × Nat) :=
  if (mainCandidates files).isEmpty then (sortSizeDesc files).head?
  else (sortSizeDesc (mainCandidates files)).head?

example :
    select_rom [("a-ota.zip", 10485760), ("a-target_files.zip", 52428800),
      ("a.zip", 31457280)] = some ("a.zip", 31457280) := by decide

example :
    select_rom [("a-ota.zip", 10485760), ("a-target_files.zip", 52428800)]
      = some ("a-target_files.zip", 52428800) := by decide

/-! ## Build evaluation (lines 308-323) -/

/-- Lines 310-314: the build log exists and contains the success phrase.
The log is `none` when `build.log` does not exist. -/
def logHasPhrase (log : Option String) : Bool :=
  match log with
  | none => false
  | some content => containsSub "build completed successfully".data content.data

/-- Lines 318-323: the fallback check that the device output directory
exists and contains at least one artifact. -/
def hasArtifact (outDir : Option (List (String × Nat))) (device : String) : Bool :=
  match outDir with
  | none => false
  | some listing => !(artifactFiles listing device).isEmpty

/-- The success decision of lines 308-323: the log phrase, else the
artifact fallback. -/
def evaluate_success (log : Option String) (outDir : Option (List (String × Nat)))
    (device : String) : Bool :=
  if logHasPhrase log then true else hasArtifact outDir device

/-! ## Driver events -/

/-- Console diagnostics the claims refer to (lines 40 and 202). -/
inductive PrintMsg
  | configNotFound
  | missingKey (k : String)
deriving DecidableEq, Repr

/-- Status messages sent with `send_message`. -/
inductive SendMsg
  | syncing
  | compiling
  | packagingFailed
deriving DecidableEq, Repr

/-- Status messages written with `edit_message`. -/
inductive EditMsg
  | syncComplete
  | syncFailed
  | progress (s : String)
  | buildFailed
  | buildSuccess
deriving DecidableEq, Repr

/-- Telegram / gofile HTTP calls. -/
inductive NetOp
  | sendStatus (m : SendMsg)
  | editStatus (m : EditMsg)
  | sendDoc (path : String)
  | pin
  | gofile (path : String)
deriving DecidableEq, Repr

/-- Subprocess invocations of the driver. -/
inductive Cmd
  | ioLocal
  | ioRemote
  | repoSync (jobs : Nat)
  | repoSyncForce
  | brunch (device variant : String)
  | rcloneCopy (src : String)
  | rcloneLink (src : String)
  | md5sum (path : String)
  | lsSize (path : String)
deriving DecidableEq, Repr

/-- An observable side effect of one run of `main`. -/
inductive Event
  | print (m : PrintMsg)
  | net (n : NetOp)
  | subproc (c : Cmd)
  | shutdown
deriving DecidableEq, Repr

/-- Network calls (Telegram and gofile requests). -/
def Event.isNetwork : Event → Bool
  | Event.net _ => true
  | _ => false

/-- Subprocess calls, including the `os.system` shutdown. -/
def Event.isSubprocess : Event → Bool
  | Event.subproc _ => true
  | Event.shutdown => true
  | _ => false

/-- The `repo sync` invocations (first attempt or forced retry). -/
def Event.isSyncCmd : Event → Bool
  | Event.subproc (Cmd.repoSync _) => true
  | Event.subproc Cmd.repoSyncForce => true
  | _ => false

/-! ## The world a run of `main` observes -/

/-- The command-line flags (lines 188-192). -/
structure Args where
  sync : Bool
  clean : Bool
  clean_device : Bool
  disk_optimization : Bool
deriving DecidableEq, Repr

/-- Everything external a run of `main` observes: the config file, the
processor count, exit codes of the external tools, Telegram send
results, the states of `build.log` at each poll, and the output
directory after the build. -/
structure World where
  configFile : Option (List String)
  args : Args
  cpu_count : Nat
  ioScriptExists : Bool
  sync1Exit : Nat
  sync2Exit : Nat
  syncSendOk : Option Nat
  buildSendOk : Option Nat
  polls : List FileState
  finalLog : Option String
  outDir : Option (List (String × Nat))
  errorLogExists : Bool
  pkgFails : Bool
  rcloneCopyExit : Nat
  otaJsonExists : Bool
deriving Repr

/-! ## Driver phases -/

/-- Disk optimization (lines 214-221): run the local script if present,
else pipe the remote script to a shell. -/
def optPhase (w : World) : List Event :=
  if w.args.disk_optimization then
    [Event.subproc (if w.ioScriptExists then Cmd.ioLocal else Cmd.ioRemote)]
  else []

/-- The sync stage (lines 224-252): status send, first sync, one forced
retry on non-zero exit, and a best-effort status edit (a no-op when the
status send returned no message id). -/
def syncPhase (w : World) (jobs : Nat) : List Event :=
  [Event.net (NetOp.sendStatus SendMsg.syncing), Event.subproc (Cmd.repoSync jobs)]
    ++ (if w.sync1Exit ≠ 0 then [Event.subproc Cmd.repoSyncForce] else [])
    ++ (if w.syncSendOk.isSome then
          [Event.net (NetOp.editStatus
            (if (if w.sync1Exit ≠ 0 then w.sync2Exit else w.sync1Exit) = 0 then
              EditMsg.syncComplete
            else EditMsg.syncFailed))]
        else [])

/-- The polling loop of lines 290-303 as a state transformer: thread the
`previous_prog` string through the successive observations of
`build.log`, collecting the progress strings that trigger an edit.
A falsy (`None` or empty) extraction triggers nothing and leaves the
remembered string unchanged. -/
def poll_loop : String → List FileState → String × List String
  | prev, [] => (prev, [])
  | prev, st :: rest =>
    match fetch_progress st with
    | none => poll_loop prev rest
    | some s =>
      if s ≠ "" ∧ s ≠ prev then
        let r := poll_loop s rest
        (r.1, s :: r.2)
      else
        poll_loop prev rest

/-- The events of the polling loop: each collected progress string is an
`editMessage` call, suppressed entirely when the compile status send
returned no message id. -/
def pollPhase (msgId : Option Nat) (prev : String) (polls : List FileState) : List Event :=
  if msgId.isSome then
    (poll_loop prev polls).2.map (fun s => Event.net (NetOp.editStatus (EditMsg.progress s)))
  else []

/-- The events up to and including the compile stage: optimization,
sync, the compile status send (line 278), the `brunch` child process
(line 288) and the polling loop. -/
def preEvents (w : World) (cfg : List (String × Value)) : List Event :=
  optPhase w
    ++ (if w.args.sync then
          syncPhase w (if w.cpu_count > 8 then 12 else w.cpu_count)
        else [])
    ++ [Event.net (NetOp.sendStatus SendMsg.compiling),
        Event.subproc (Cmd.brunch (getStr cfg "DEVICE") (getStr cfg "VARIANT"))]
    ++ pollPhase w.buildSendOk "" w.polls

/-- The failure path (lines 325-335): best-effort status edit, error log
attachment if present, then `sys.exit(1)`. -/
def failPhase (w : World) : List Event :=
  (if w.buildSendOk.isSome then [Event.net (NetOp.editStatus EditMsg.buildFailed)] else [])
    ++ (if w.errorLogExists then [Event.net (NetOp.sendDoc "out/error.log")] else [])

/-- The packaging and upload stage (lines 337-413).  Every exception in
the `try` block is caught and reported with a plain `send_message`; the
abstraction point `w.pkgFails` stands for an OS failure in the staging
or archiving steps before the uploads.  On the exception-free path:
rclone copy (plus link when the copy exits zero), the gofile upload of
the initial-install archive, the optional gofile upload of the OTA JSON,
the checksum and size subprocesses, the best-effort success edit and the
pin request. -/
def packagePhase (w : World) (device : String) : List Event :=
  match w.outDir with
  | none => [Event.net (NetOp.sendStatus SendMsg.packagingFailed)]
  | some listing =>
    match select_rom (artifactFiles listing device) with
    | none => [Event.net (NetOp.sendStatus SendMsg.packagingFailed)]
    | some rom =>
      if w.pkgFails then [Event.net (NetOp.sendStatus SendMsg.packagingFailed)]
      else
        [Event.subproc (Cmd.rcloneCopy rom.1)]
          ++ (if w.rcloneCopyExit = 0 then [Event.subproc (Cmd.rcloneLink rom.1)] else [])
          ++ [Event.net (NetOp.gofile (String.replace rom.1 ".zip" "-initial-install.zip"))]
          ++ (if w.otaJsonExists then
                [Event.net (NetOp.gofile ("vendor/ota/" ++ device ++ ".json"))]
              else [])
          ++ [Event.subproc (Cmd.md5sum rom.1), Event.subproc (Cmd.lsSize rom.1)]
          ++ (if w.buildSendOk.isSome then
                [Event.net (NetOp.editStatus EditMsg.buildSuccess)]
              else [])
          ++ [Event.net NetOp.pin]

/-- The pipeline after configuration validation (lines 205-417): the
stages up to compile, the success evaluation, then either packaging plus
the optional shutdown and exit code 0, or the failure path and exit
code 1.  `sys.exit(1)` on the failure path makes the shutdown check of
line 415 unreachable there. -/
def runPipeline (w : World) (cfg : List (String × Value)) : List Event × Nat :=
  if evaluate_success w.finalLog w.outDir (getStr cfg "DEVICE") then
    (preEvents w cfg ++ packagePhase w (getStr cfg "DEVICE")
      ++ (if poweroffSet cfg then [Event.shutdown] else []), 0)
  else
    (preEvents w cfg ++ failPhase w, 1)

/-- The driver `main` (lines 186-417): configuration loading (fatal when the file
is missing, line 41), required-key validation (lines 199-203), then the
pipeline. -/
def mainRun (w : World) : List Event × Nat :=
  match w.configFile with
  | none => ([Event.print PrintMsg.configNotFound], 1)
  | some lines =>
    match requiredKeys.find? (keyMissing (load_env lines)) with
    | some k => ([Event.print (PrintMsg.missingKey k)], 1)
    | none => runPipeline w (load_env lines)

example : fetch_progress (FileState.content ["ninja: 10% 1/10", "ninja: 37% 37/100"])
    = some "37% (37/100)" := by decide

example : fetch_progress (FileState.content ["ninja: 10% (1/10)", "ninja: 37% (37/100)"])
    = some "Initializing..." := by decide

example : configGet (load_env ["KEY=\"\"x\"\""]) "KEY" = some (Value.str "x") := by decide

example : configGet (load_env ["# comment", "", "A = true", "B = 7 "]) "A"
    = some (Value.bool true) := by decide

example : configGet (load_env ["B = 7 "]) "B" = some (Value.str "7") := by decide

/-! ## Helper lemmas about the stripping primitives -/

theorem head_dropWhile_false {p : Char → Bool} {c : Char} :
    ∀ {l : List Char}, (List.dropWhile p l).head? = some c → p c = false := by
  intro l
  induction l with
  | nil => intro h; simp [List.dropWhile] at h
  | cons a as ih =>
    intro h
    rw [List.dropWhile_cons] at h
    by_cases hp : p a = true
    · rw [if_pos hp] at h
      exact ih h
    · rw [if_neg hp] at h
      simp at h
      subst h
      exact Bool.eq_false_iff.mpr hp

theorem dropWhile_suffix_decomp {p : Char → Bool} :
    ∀ (l : List Char), ∃ t, l = t ++ List.dropWhile p l := by
  intro l
  induction l with
  | nil => exact ⟨[], rfl⟩
  | cons a as ih =>
    rw [List.dropWhile_cons]
    by_cases hp : p a = true
    · rw [if_pos hp]
      obtain ⟨t, ht⟩ := ih
      exact ⟨a :: t, by rw [List.cons_append, ← ht]⟩
    · rw [if_neg hp]
      exact ⟨[], rfl⟩

theorem getLast?_append_some {α : Type} {l₂ : List α} {c : α} (h : l₂.getLast? = some c) :
    ∀ (l₁ : List α), (l₁ ++ l₂).getLast? = some c := by
  intro l₁
  cases l₂ with
  | nil => simp at h
  | cons b bs =>
    rw [List.getLast?_append_of_ne_nil]
    · exact h
    · simp

theorem stripBoth_getLast_not {p : Char → Bool} {s : List Char} {c : Char}
    (h : (stripBoth p s).getLast? = some c) : p c = false := by
  unfold stripBoth at h
  rw [List.getLast?_reverse] at h
  exact head_dropWhile_false h

theorem stripBoth_head_not {p : Char → Bool} {s : List Char} {c : Char}
    (h : (stripBoth p s).head? = some c) : p c = false := by
  unfold stripBoth at h
  rw [List.head?_reverse] at h
  obtain ⟨t, ht⟩ := dropWhile_suffix_decomp (p := p) (List.dropWhile p s).reverse
  have h2 : ((List.dropWhile p s).reverse).getLast? = some c := by
    rw [ht]
    apply getLast?_append_some
    exact h
  rw [List.getLast?_reverse] at h2
  exact head_dropWhile_false h2

/-! ## Helper lemmas about the progress pattern -/

theorem sentinel_data : "Initializing...".data
    = ['I', 'n', 'i', 't', 'i', 'a', 'l', 'i', 'z', 'i', 'n', 'g', '.', '.', '.'] := rfl

theorem takeDigits_head : ∀ {s : List Char} {c : Char} {d r : List Char},
    takeDigits s = (c :: d, r) → c.isDigit = true := by
  intro s c d r h
  cases s with
  | nil => simp [takeDigits] at h
  | cons a as =>
    rw [takeDigits] at h
    by_cases ha : a.isDigit = true
    · rw [if_pos ha] at h
      simp at h
      rw [← h.1.1]
      exact ha
    · rw [if_neg ha] at h
      simp at h

theorem matchAt_shape {s : List Char} {g : List Char × List Char × List Char}
    (h : matchAt s = some g) : ∃ c cs, g.1 = c :: cs ∧ c.isDigit = true := by
  unfold matchAt at h
  split at h <;> try simp at h
  rename_i c1 ds1 r2 heq1
  split at h <;> try simp at h
  rename_i c2 ds2 r4 heq2
  split at h <;> try simp at h
  rename_i heq3
  refine ⟨c1, ds1, by rw [← h], takeDigits_head heq1⟩

theorem searchPat_shape : ∀ {s : List Char} {g : List Char × List Char × List Char},
    searchPat s = some g → ∃ c cs, g.1 = c :: cs ∧ c.isDigit = true := by
  intro s
  induction s with
  | nil => intro g h; simp [searchPat] at h
  | cons a as ih =>
    intro g h
    rw [searchPat] at h
    cases hm : matchAt (a :: as) with
    | some g2 =>
      rw [hm] at h
      injection h with h2
      rw [← h2]
      exact matchAt_shape hm
    | none =>
      rw [hm] at h
      exact ih h

theorem formatProgress_ne_sentinel {c : Char} {cs d2 d3 : List Char}
    (hc : c.isDigit = true) :
    formatProgress (c :: cs) d2 d3 ≠ "Initializing..." := by
  intro h
  have hd : ((c :: cs) ++ '%' :: ' ' :: '(' :: (d2 ++ '/' :: d3) ++ [')'])
      = "Initializing...".data := congrArg String.data h
  rw [sentinel_data, List.cons_append] at hd
  have hcI : c = 'I' := (List.cons.injEq _ _ _ _).mp hd |>.1
  rw [hcI] at hc
  exact absurd hc (by decide)

theorem scanRev_sentinel : ∀ {L : List String}, scanRev L = "Initializing..." →
    ∀ l ∈ L, lineGate l = true → searchPat l.data = none := by
  intro L
  induction L with
  | nil => intro _ l hl; simp at hl
  | cons a as ih =>
    intro h l hl hg
    rw [scanRev] at h
    by_cases hga : lineGate a = true
    · rw [if_pos hga] at h
      cases hsp : searchPat a.data with
      | some g =>
        rw [hsp] at h
        simp only [] at h
        obtain ⟨c, cs, hgc, hdig⟩ := searchPat_shape hsp
        rw [hgc] at h
        exact absurd h (formatProgress_ne_sentinel hdig)
      | none =>
        rw [hsp] at h
        simp only [] at h
        rcases List.mem_cons.mp hl with hla | hlas
        · rw [hla]; exact hsp
        · exact ih h l hlas hg
    · rw [if_neg hga] at h
      rcases List.mem_cons.mp hl with hla | hlas
      · rw [hla] at hg; exact absurd hg hga
      · exact ih h l hlas hg

/-! ## Helper lemmas about the descending size sort -/

theorem mem_insertDesc {x y : String × Nat} : ∀ {l : List (String × Nat)},
    y ∈ insertDesc x l ↔ y = x ∨ y ∈ l := by
  intro l
  induction l with
  | nil => simp [insertDesc]
  | cons a as ih =>
    rw [insertDesc]
    by_cases hc : a.2 < x.2
    · rw [if_pos hc]
      simp [List.mem_cons]
    · rw [if_neg hc]
      simp only [List.mem_cons, ih]
      tauto

theorem insertDesc_pairwise {x : String × Nat} : ∀ {l : List (String × Nat)},
    List.Pairwise (fun a b => b.2 ≤ a.2) l →
    List.Pairwise (fun a b => b.2 ≤ a.2) (insertDesc x l) := by
  intro l
  induction l with
  | nil => intro _; simp [insertDesc]
  | cons a as ih =>
    intro hp
    rcases List.pairwise_cons.mp hp with ⟨ha, has⟩
    rw [insertDesc]
    by_cases hc : a.2 < x.2
    · rw [if_pos hc]
      refine List.pairwise_cons.mpr ⟨?_, hp⟩
      intro z hz
      rcases List.mem_cons.mp hz with hz1 | hz2
      · rw [hz1]; exact Nat.le_of_lt hc
      · exact Nat.le_trans (ha z hz2) (Nat.le_of_lt hc)
    · rw [if_neg hc]
      refine List.pairwise_cons.mpr ⟨?_, ih has⟩
      intro z hz
      rcases mem_insertDesc.mp hz with hz1 | hz2
      · rw [hz1]; exact Nat.le_of_not_lt hc
      · exact ha z hz2

theorem foldInsert_mem {y : String × Nat} : ∀ (l acc : List (String × Nat)),
    (y ∈ l.foldl (fun acc x => insertDesc x acc) acc) ↔ y ∈ acc ∨ y ∈ l := by
  intro l
  induction l with
  | nil => intro acc; simp
  | cons a as ih =>
    intro acc
    rw [List.foldl_cons, ih]
    simp [mem_insertDesc]
    tauto

theorem foldInsert_pairwise : ∀ (l acc : List (String × Nat)),
    List.Pairwise (fun a b => b.2 ≤ a.2) acc →
    List.Pairwise (fun a b => b.2 ≤ a.2) (l.foldl (fun acc x => insertDesc x acc) acc) := by
  intro l
  induction l with
  | nil => intro acc h; exact h
  | cons a as ih =>
    intro acc h
    exact ih _ (insertDesc_pairwise h)

theorem sortSizeDesc_mem {y : String × Nat} {l : List (String × Nat)} :
    y ∈ sortSizeDesc l ↔ y ∈ l := by
  unfold sortSizeDesc
  rw [foldInsert_mem]
  simp

theorem sortSizeDesc_pairwise (l : List (String × Nat)) :
    List.Pairwise (fun a b => b.2 ≤ a.2) (sortSizeDesc l) :=
  foldInsert_pairwise l [] (by simp)

theorem head_of_pairwise_max {l : List (String × Nat)} {x : String × Nat}
    (hp : List.Pairwise (fun a b => b.2 ≤ a.2) l) (hh : l.head? = some x) :
    ∀ y ∈ l, y.2 ≤ x.2 := by
  cases l with
  | nil => simp at hh
  | cons a as =>
    simp at hh
    intro y hy
    rcases List.pairwise_cons.mp hp with ⟨ha, _⟩
    rcases List.mem_cons.mp hy with h1 | h2
    · rw [h1, hh]
    · rw [← hh]
      exact ha y h2

theorem sortSizeDesc_head {l : List (String × Nat)} (hne : l ≠ []) :
    ∃ x, (sortSizeDesc l).head? = some x ∧ x ∈ l ∧ ∀ y ∈ l, y.2 ≤ x.2 := by
  have hSne : sortSizeDesc l ≠ [] := by
    cases l with
    | nil => exact absurd rfl hne
    | cons a as =>
      intro hS
      have ha : a ∈ sortSizeDesc (a :: as) := sortSizeDesc_mem.mpr (by simp)
      rw [hS] at ha
      simp at ha
  cases hS : sortSizeDesc l with
  | nil => exact absurd hS hSne
  | cons x xs =>
    have hhead : (sortSizeDesc l).head? = some x := by rw [hS]; rfl
    have hxmem : x ∈ l := sortSizeDesc_mem.mp (by rw [hS]; exact List.mem_cons_self x xs)
    refine ⟨x, rfl, hxmem, ?_⟩
    intro y hy
    exact head_of_pairwise_max (sortSizeDesc_pairwise l) hhead y (sortSizeDesc_mem.mpr hy)

/-! ## Helper lemmas about event classification -/

@[simp] theorem isSyncCmd_net (n : NetOp) : Event.isSyncCmd (Event.net n) = false := rfl

@[simp] theorem isSyncCmd_print (m : PrintMsg) :
    Event.isSyncCmd (Event.print m) = false := rfl

@[simp] theorem isSyncCmd_shutdown : Event.isSyncCmd Event.shutdown = false := rfl

@[simp] theorem isSyncCmd_ioLocal : Event.isSyncCmd (Event.subproc Cmd.ioLocal) = false := rfl

@[simp] theorem isSyncCmd_ioRemote :
    Event.isSyncCmd (Event.subproc Cmd.ioRemote) = false := rfl

@[simp] theorem isSyncCmd_brunch (d v : String) :
    Event.isSyncCmd (Event.subproc (Cmd.brunch d v)) = false := rfl

@[simp] theorem isSyncCmd_rcloneCopy (s : String) :
    Event.isSyncCmd (Event.subproc (Cmd.rcloneCopy s)) = false := rfl

@[simp] theorem isSyncCmd_rcloneLink (s : String) :
    Event.isSyncCmd (Event.subproc (Cmd.rcloneLink s)) = false := rfl

@[simp] theorem isSyncCmd_md5sum (s : String) :
    Event.isSyncCmd (Event.subproc (Cmd.md5sum s)) = false := rfl

@[simp] theorem isSyncCmd_lsSize (s : String) :
    Event.isSyncCmd (Event.subproc (Cmd.lsSize s)) = false := rfl

@[simp] theorem isSyncCmd_repoSync (j : Nat) :
    Event.isSyncCmd (Event.subproc (Cmd.repoSync j)) = true := rfl

@[simp] theorem isSyncCmd_repoSyncForce :
    Event.isSyncCmd (Event.subproc Cmd.repoSyncForce) = true := rfl

/-! ## Filter lemmas for the driver phases -/

theorem optPhase_no_sync (w : World) : (optPhase w).filter Event.isSyncCmd = [] := by
  unfold optPhase
  cases w.args.disk_optimization
  · rfl
  · cases w.ioScriptExists <;> rfl

theorem map_progress_no_sync (l : List String) :
    (l.map (fun s => Event.net (NetOp.editStatus (EditMsg.progress s)))).filter
      Event.isSyncCmd = [] := by
  induction l with
  | nil => rfl
  | cons a as ih => simp [List.filter_cons, ih]

theorem pollPhase_no_sync (msgId : Option Nat) (prev : String) (polls : List FileState) :
    (pollPhase msgId prev polls).filter Event.isSyncCmd = [] := by
  unfold pollPhase
  cases msgId
  · rfl
  · simp only [Option.isSome_some, if_pos]
    exact map_progress_no_sync _

theorem failPhase_no_sync (w : World) : (failPhase w).filter Event.isSyncCmd = [] := by
  unfold failPhase
  cases w.buildSendOk <;> cases w.errorLogExists <;> rfl

theorem packagePhase_no_sync (w : World) (d : String) :
    (packagePhase w d).filter Event.isSyncCmd = [] := by
  unfold packagePhase
  split
  · rfl
  · split
    · rfl
    · split
      · rfl
      · simp [List.filter_append, List.filter_cons, apply_ite (List.filter Event.isSyncCmd)]

theorem syncPhase_filter_sync (w : World) (jobs : Nat) (hf : w.sync1Exit ≠ 0) :
    (syncPhase w jobs).filter Event.isSyncCmd
      = [Event.subproc (Cmd.repoSync jobs), Event.subproc Cmd.repoSyncForce] := by
  unfold syncPhase
  rw [if_pos hf]
  cases w.syncSendOk <;>
    simp [List.filter_append, List.filter_cons]

theorem preEvents_filter_sync (w : World) (cfg : List (String × Value))
    (hs : w.args.sync = true) (hf : w.sync1Exit ≠ 0) :
    (preEvents w cfg).filter Event.isSyncCmd
      = [Event.subproc (Cmd.repoSync (if w.cpu_count > 8 then 12 else w.cpu_count)),
         Event.subproc Cmd.repoSyncForce] := by
  unfold preEvents
  rw [hs, if_pos rfl]
  rw [List.filter_append, List.filter_append, List.filter_append]
  rw [optPhase_no_sync, pollPhase_no_sync, syncPhase_filter_sync w _ hf]
  rfl

/-! ## Dispatch lemmas for `mainRun` -/

theorem mainRun_valid (w : World) (lines : List String)
    (h1 : w.configFile = some lines)
    (h2 : requiredKeys.find? (keyMissing (load_env lines)) = none) :
    mainRun w = runPipeline w (load_env lines) := by
  simp only [mainRun, h1, h2]

theorem mainRun_missing (w : World) (lines : List String) (k : String)
    (h1 : w.configFile = some lines)
    (h2 : requiredKeys.find? (keyMissing (load_env lines)) = some k) :
    mainRun w = ([Event.print (PrintMsg.missingKey k)], 1) := by
  simp only [mainRun, h1, h2]

/-! ## Claim theorems -/

theorem scanRev_cons_match (line : String) (g : List Char × List Char × List Char)
    (hg : lineGate line = true) (hs : searchPat line.data = some g)
    (rest : List String) :
    scanRev (line :: rest) = formatProgress g.1 g.2.1 g.2.2 := by
  rw [scanRev, if_pos hg, hs]

/-- C1 counterexample: on the log lines of the claim, whose fraction is
parenthesized, the pattern `(\d+%) (\d+/\d+)` does not match (a `(`
stands where the pattern requires a digit), so `fetch_progress` returns
the sentinel rather than `37% (37/100)`. -/
theorem progress_paren_counterexample :
    fetch_progress (FileState.content ["ninja: 10% (1/10)", "ninja: 37% (37/100)"])
      = some "Initializing..."
    ∧ fetch_progress (FileState.content ["ninja: 10% (1/10)", "ninja: 37% (37/100)"])
      ≠ some "37% (37/100)" := by
  exact ⟨by decide, by decide⟩

/-- C1 (amended): for a log whose lines end with
`[..., "ninja: 10% 1/10", "ninja: 37% 37/100"]` (percentage token
followed by a bare `completed/total` token, as in the build tool
output), `fetch_progress` scans from the end, matches the last line and
returns the captured tokens formatted as `37% (37/100)`. -/
theorem progress_example_scan_from_end (pre : List String) :
    fetch_progress (FileState.content (pre ++ ["ninja: 10% 1/10", "ninja: 37% 37/100"]))
      = some "37% (37/100)" := by
  show some (scanRev (pre ++ ["ninja: 10% 1/10", "ninja: 37% 37/100"]).reverse) = _
  rw [List.reverse_append]
  show some (scanRev ("ninja: 37% 37/100" :: "ninja: 10% 1/10" :: pre.reverse)) = _
  rw [scanRev_cons_match _ (['3', '7'], ['3', '7'], ['1', '0', '0']) (by decide)
    (by decide)]
  decide

/-- C3 counterexample: for the line `KEY=""x""` the loader stores the
value `x` with every surrounding quote removed, not the single-layer
`"x"` the claim predicts. -/
theorem quote_strip_counterexample :
    configGet (load_env ["KEY=\"\"x\"\""]) "KEY" = some (Value.str "x")
    ∧ configGet (load_env ["KEY=\"\"x\"\""]) "KEY" ≠ some (Value.str "\"x\"") := by
  exact ⟨by decide, by decide⟩

/-- C3 (amended): the loader splits on the first `=`, trims whitespace
from key and value, then removes all leading and trailing double-quote
characters and afterwards all leading and trailing single-quote
characters from the value, regardless of whether the quotes pair up:
`""x""` and a value written with one double quote and one trailing
single quote both collapse to `x`, and the final value never starts or
ends with a single-quote character. -/
theorem load_env_value_stripping :
    (configGet (load_env ["A=\"\"x\"\""]) "A" = some (Value.str "x"))
    ∧ (configGet (load_env [" B = \"x\" "]) "B" = some (Value.str "x"))
    ∧ (configGet (load_env ["C=a=b"]) "C" = some (Value.str "a=b"))
    ∧ (configGet (load_env [String.mk (['D', '='] ++ [singleQuote, 'h', 'i', singleQuote])])
        "D" = some (Value.str "hi"))
    ∧ (configGet (load_env [String.mk ['E', '=', '"', 'x', singleQuote]]) "E"
        = some (Value.str "x"))
    ∧ (∀ (s : String) (c : Char),
        ((pyStripChars [singleQuote] s).data.head? = some c → c ≠ singleQuote)
        ∧ ((pyStripChars [singleQuote] s).data.getLast? = some c → c ≠ singleQuote)) := by
  refine ⟨by decide, by decide, by decide, by decide, by decide, ?_⟩
  intro s c
  constructor
  · intro h hq
    have hb := stripBoth_head_not h
    rw [hq] at hb
    simp at hb
  · intro h hq
    have hb := stripBoth_getLast_not h
    rw [hq] at hb
    simp at hb

/-- C9: in `upload_rclone` only a non-zero exit of the copy step yields
the fixed failure string; when the copy succeeds the adapter returns the
trimmed standard output of the link step (possibly empty), regardless of
the link step exit code. -/
theorem rclone_failure_only_from_copy (copyCode linkCode linkCode2 : Nat) (out : String) :
    (copyCode ≠ 0 → upload_rclone copyCode linkCode out = "Rclone Upload Failed")
    ∧ (copyCode = 0 → upload_rclone copyCode linkCode out = pyStrip out)
    ∧ upload_rclone 0 linkCode out = upload_rclone 0 linkCode2 out
    ∧ upload_rclone 0 linkCode "" = "" := by
  refine ⟨?_, ?_, rfl, ?_⟩
  · intro h
    unfold upload_rclone
    rw [if_pos h]
  · intro h
    subst h
    unfold upload_rclone
    rw [if_neg (by simp)]
  · unfold upload_rclone
    rw [if_neg (by simp)]
    decide

/-- Witness for the C9 theorem at concrete inputs. -/
theorem rclone_failure_only_from_copy_witness :
    upload_rclone 2 0 "x" = "Rclone Upload Failed"
    ∧ upload_rclone 0 7 " u " = pyStrip " u " :=
  ⟨(rclone_failure_only_from_copy 2 0 0 "x").1 (by decide),
   (rclone_failure_only_from_copy 0 7 0 " u ").2.1 rfl⟩

/-- C4: after the build child exits, success is declared exactly when
the build log contains `build completed successfully`, or, the phrase
being absent, the device output directory exists and contains a file
whose name contains the device identifier and ends in `.zip`. -/
theorem build_success_iff (log : Option String) (outDir : Option (List (String × Nat)))
    (device : String) :
    evaluate_success log outDir device = true ↔
      (logHasPhrase log = true
        ∨ (logHasPhrase log = false ∧ ∃ listing, outDir = some listing
            ∧ ∃ f ∈ listing, containsSub device.data f.1.data = true
              ∧ suffixIs ".zip".data f.1.data = true)) := by
  unfold evaluate_success
  by_cases hl : logHasPhrase log = true
  · rw [if_pos hl]
    simp [hl]
  · have hl2 : logHasPhrase log = false := Bool.eq_false_iff.mpr hl
    rw [if_neg hl]
    simp only [hl2, Bool.false_eq_true, false_or, true_and]
    unfold hasArtifact
    cases outDir with
    | none => simp
    | some listing =>
      simp only [Option.some.injEq]
      unfold artifactFiles
      rw [Bool.not_eq_true', Bool.eq_false_iff]
      constructor
      · intro hne
        refine ⟨listing, rfl, ?_⟩
        rcases hfe : listing.filter
            (fun f => containsSub device.data f.1.data && suffixIs ".zip".data f.1.data) with
          _ | ⟨a, as⟩
        · exact absurd (List.isEmpty_iff.mpr hfe) hne
        · have ha := List.mem_filter.mp (hfe ▸ List.mem_cons_self a as)
          have ha2 := ha.2
          rw [Bool.and_eq_true] at ha2
          exact ⟨a, ha.1, ha2⟩
      · rintro ⟨listing2, hl2eq, f, hfmem, hc1, hc2⟩
        cases hl2eq
        intro hemp
        have hf2 : f ∈ List.filter
            (fun f => containsSub device.data f.1.data && suffixIs ".zip".data f.1.data)
            listing :=
          List.mem_filter.mpr ⟨hfmem, by rw [Bool.and_eq_true]; exact ⟨hc1, hc2⟩⟩
        rw [List.isEmpty_iff.mp hemp] at hf2
        simp at hf2

/-- C7: a missing log path yields the null result, which is distinct
from the sentinel; the sentinel arises only when the file exists: on a
read error, or when no line that passes the `ninja`/`%` filter matches
the progress pattern. -/
theorem progress_absent_null_vs_sentinel :
    fetch_progress FileState.absent = none
    ∧ fetch_progress FileState.unreadable = some "Initializing..."
    ∧ (∀ st : FileState, fetch_progress st = some "Initializing..." → st ≠ FileState.absent)
    ∧ (∀ lines : List String,
        fetch_progress (FileState.content lines) = some "Initializing..." →
          ∀ l ∈ lines, lineGate l = true → searchPat l.data = none) := by
  refine ⟨rfl, rfl, ?_, ?_⟩
  · intro st h hc
    rw [hc] at h
    simp [fetch_progress] at h
  · intro lines h l hl hg
    have hs : scanRev lines.reverse = "Initializing..." := by
      simpa [fetch_progress] using h
    exact scanRev_sentinel hs l (List.mem_reverse.mpr hl) hg

/-- Witness for the C7 theorem: the sentinel cases at concrete inputs. -/
theorem progress_absent_null_vs_sentinel_witness :
    FileState.unreadable ≠ FileState.absent ∧ searchPat "50% done".data = none :=
  ⟨progress_absent_null_vs_sentinel.2.2.1 FileState.unreadable rfl,
   progress_absent_null_vs_sentinel.2.2.2 ["50% done"] (by decide) "50% done"
     (by decide) (by decide)⟩

/-- C10: in the compile polling loop, a null extractor result triggers
nothing and leaves the remembered progress unchanged; every progress
string that triggers an edit is non-empty, differs from the previously
reported one (consecutive reported values form a chain of distinct
strings starting from the initial value), and was returned by the
extractor at some poll. -/
theorem poll_loop_edit_invariants :
    (∀ (prev : String) (st : FileState) (rest : List FileState),
        fetch_progress st = none →
          poll_loop prev (st :: rest) = poll_loop prev rest)
    ∧ (∀ (prev : String) (polls : List FileState),
        List.Chain' (fun a b => a ≠ b) (prev :: (poll_loop prev polls).2))
    ∧ (∀ (prev : String) (polls : List FileState) (e : String),
        e ∈ (poll_loop prev polls).2 →
          e ≠ "" ∧ ∃ st ∈ polls, fetch_progress st = some e) := by
  refine ⟨?_, ?_, ?_⟩
  · intro prev st rest h
    rw [poll_loop, h]
  · intro prev polls
    induction polls generalizing prev with
    | nil => simp [poll_loop]
    | cons st rest ih =>
      rw [poll_loop]
      cases hf : fetch_progress st with
      | none => exact ih prev
      | some s =>
        show List.Chain' (fun a b => a ≠ b)
          (prev :: (if s ≠ "" ∧ s ≠ prev then
              ((poll_loop s rest).1, s :: (poll_loop s rest).2)
            else poll_loop prev rest).2)
        by_cases hc : s ≠ "" ∧ s ≠ prev
        · rw [if_pos hc]
          exact List.chain'_cons.mpr ⟨Ne.symm hc.2, ih s⟩
        · rw [if_neg hc]
          exact ih prev
  · intro prev polls
    induction polls generalizing prev with
    | nil => intro e he; simp [poll_loop] at he
    | cons st rest ih =>
      intro e he
      rw [poll_loop] at he
      cases hf : fetch_progress st with
      | none =>
        rw [hf] at he
        obtain ⟨hne, st2, hmem, hfp⟩ := ih prev e he
        exact ⟨hne, st2, List.mem_cons_of_mem st hmem, hfp⟩
      | some s =>
        rw [hf] at he
        have he2 : e ∈ (if s ≠ "" ∧ s ≠ prev then
            ((poll_loop s rest).1, s :: (poll_loop s rest).2)
          else poll_loop prev rest).2 := he
        by_cases hc : s ≠ "" ∧ s ≠ prev
        · rw [if_pos hc] at he2
          rcases List.mem_cons.mp he2 with he1 | he3
          · exact ⟨he1 ▸ hc.1, st, List.mem_cons_self st rest, he1 ▸ hf⟩
          · obtain ⟨hne, st2, hmem, hfp⟩ := ih s e he3
            exact ⟨hne, st2, List.mem_cons_of_mem st hmem, hfp⟩
        · rw [if_neg hc] at he2
          obtain ⟨hne, st2, hmem, hfp⟩ := ih prev e he2
          exact ⟨hne, st2, List.mem_cons_of_mem st hmem, hfp⟩

/-- Witness for the C10 theorem: a null poll is skipped, and a concrete
edit arises from a concrete extractor result. -/
theorem poll_loop_edit_invariants_witness :
    poll_loop "" [FileState.absent, FileState.content ["ninja 5% 1/2"]]
        = poll_loop "" [FileState.content ["ninja 5% 1/2"]]
    ∧ ("5% (1/2)" ≠ ""
        ∧ ∃ st ∈ [FileState.content ["ninja 5% 1/2"]],
            fetch_progress st = some "5% (1/2)") :=
  ⟨poll_loop_edit_invariants.1 "" FileState.absent [FileState.content ["ninja 5% 1/2"]] rfl,
   poll_loop_edit_invariants.2.2 "" [FileState.content ["ninja 5% 1/2"]] "5% (1/2)"
     (by decide)⟩

/-- C5: among the candidate zip files of the device output directory,
the selected main artifact is the largest candidate whose name does not
contain `ota` or `target_files` (case-insensitively); only when every
candidate contains one of those substrings is the largest candidate
overall selected; on the claim instance
`{a-ota.zip 10MB, a-target_files.zip 50MB, a.zip 30MB}` the selection
is `a.zip`. -/
theorem main_artifact_selection (files : List (String × Nat)) :
    (mainCandidates files ≠ [] →
      ∃ x, select_rom files = some x ∧ x ∈ mainCandidates files
        ∧ excludedName x.1 = false ∧ ∀ y ∈ mainCandidates files, y.2 ≤ x.2)
    ∧ (mainCandidates files = [] → files ≠ [] →
      ∃ x, select_rom files = some x ∧ x ∈ files ∧ ∀ y ∈ files, y.2 ≤ x.2)
    ∧ select_rom [("a-ota.zip", 10485760), ("a-target_files.zip", 52428800),
        ("a.zip", 31457280)] = some ("a.zip", 31457280) := by
  refine ⟨?_, ?_, by decide⟩
  · intro hne
    obtain ⟨x, hh, hmem, hmax⟩ := sortSizeDesc_head hne
    refine ⟨x, ?_, hmem, ?_, hmax⟩
    · unfold select_rom
      rw [if_neg (by rw [List.isEmpty_iff]; exact hne)]
      exact hh
    · have hx := (List.mem_filter.mp hmem).2
      rw [Bool.not_eq_true'] at hx
      exact hx
  · intro hemp hne
    obtain ⟨x, hh, hmem, hmax⟩ := sortSizeDesc_head hne
    refine ⟨x, ?_, hmem, hmax⟩
    unfold select_rom
    rw [if_pos (by rw [List.isEmpty_iff]; exact hemp)]
    exact hh

/-- Witness for the C5 theorem: both selection branches at concrete
directory listings. -/
theorem main_artifact_selection_witness :
    (∃ x, select_rom [("d-ota.zip", 5), ("d.zip", 3)] = some x
      ∧ x ∈ mainCandidates [("d-ota.zip", 5), ("d.zip", 3)]
      ∧ excludedName x.1 = false
      ∧ ∀ y ∈ mainCandidates [("d-ota.zip", 5), ("d.zip", 3)], y.2 ≤ x.2)
    ∧ (∃ x, select_rom [("d-ota.zip", 5)] = some x ∧ x ∈ [("d-ota.zip", 5)]
      ∧ ∀ y ∈ [("d-ota.zip", 5)], y.2 ≤ x.2) :=
  ⟨(main_artifact_selection [("d-ota.zip", 5), ("d.zip", 3)]).1 (by decide),
   (main_artifact_selection [("d-ota.zip", 5)]).2.1 (by decide) (by decide)⟩

/-! ## Driver claim theorems (C2, C6, C8) -/

theorem runPipeline_eq (w : World) (cfg : List (String × Value)) :
    runPipeline w cfg
      = (preEvents w cfg
          ++ (if evaluate_success w.finalLog w.outDir (getStr cfg "DEVICE") = true
              then packagePhase w (getStr cfg "DEVICE")
                ++ (if poweroffSet cfg = true then [Event.shutdown] else [])
              else failPhase w),
         if evaluate_success w.finalLog w.outDir (getStr cfg "DEVICE") = true
           then 0 else 1) := by
  unfold runPipeline
  by_cases hev : evaluate_success w.finalLog w.outDir (getStr cfg "DEVICE") = true
  · rw [if_pos hev, if_pos hev, if_pos hev, List.append_assoc]
  · rw [if_neg hev, if_neg hev, if_neg hev]

/-- The failure-path run used to refute C2: the power-off flag is
configured, the build fails (no success phrase, no artifact), and the
run exits via the failure path. -/
def wC2 : World :=
  { configFile := some ["DEVICE=x", "VARIANT=user", "BOT_TOKEN=t", "CHAT_ID=1", "POWEROFF=true"],
    args := { sync := false, clean := false, clean_device := false, disk_optimization := false },
    cpu_count := 4, ioScriptExists := false, sync1Exit := 0, sync2Exit := 0,
    syncSendOk := none, buildSendOk := none, polls := [], finalLog := some "",
    outDir := none, errorLogExists := false, pkgFails := false,
    rcloneCopyExit := 0, otaJsonExists := false }

/-- A successful run with the power-off flag configured, used as the
witness input of the amended C2 theorem. -/
def wC2ok : World :=
  { wC2 with
    finalLog := some "build completed successfully",
    outDir := some [("x.zip", 7)],
    buildSendOk := some 1 }

/-- C2 counterexample: with the power-off flag configured and the build
failing, the run exits with code 1 and never issues the shutdown
command — `sys.exit(1)` on the failure path precedes the shutdown
check of line 415. -/
theorem shutdown_missing_on_failure_counterexample :
    poweroffSet (load_env ["DEVICE=x", "VARIANT=user", "BOT_TOKEN=t", "CHAT_ID=1",
        "POWEROFF=true"]) = true
    ∧ (mainRun wC2).2 = 1
    ∧ Event.shutdown ∉ (mainRun wC2).1 := by
  exact ⟨by decide, by decide, by decide⟩

/-- C2 (amended): when the power-off flag is configured, the shutdown
command is issued as the final step of every run that passes the build
evaluation — on both the packaging-success and packaging-failure
paths — but not on the build-failure path, which exits first. -/
theorem shutdown_final_on_success (w : World) (lines : List String)
    (h1 : w.configFile = some lines)
    (h2 : requiredKeys.find? (keyMissing (load_env lines)) = none)
    (h3 : poweroffSet (load_env lines) = true)
    (h4 : evaluate_success w.finalLog w.outDir (getStr (load_env lines) "DEVICE") = true) :
    (mainRun w).1.getLast? = some Event.shutdown ∧ (mainRun w).2 = 0 := by
  rw [mainRun_valid w lines h1 h2]
  unfold runPipeline
  rw [if_pos h4, if_pos h3]
  exact ⟨List.getLast?_concat _, rfl⟩

/-- Witness for the amended C2 theorem at a concrete successful run. -/
theorem shutdown_final_on_success_witness :
    (mainRun wC2ok).1.getLast? = some Event.shutdown ∧ (mainRun wC2ok).2 = 0 :=
  shutdown_final_on_success wC2ok
    ["DEVICE=x", "VARIANT=user", "BOT_TOKEN=t", "CHAT_ID=1", "POWEROFF=true"]
    rfl (by decide) (by decide) (by decide)

/-- C6: a configuration whose required keys include one that is absent
or falsy aborts before any network or subprocess call: the run is a
single console diagnostic naming a missing required key, with a
non-zero exit code. -/
theorem missing_required_key_aborts (w : World) (lines : List String)
    (h1 : w.configFile = some lines)
    (hk : ∃ k ∈ requiredKeys, keyMissing (load_env lines) k = true) :
    ∃ k0 ∈ requiredKeys, keyMissing (load_env lines) k0 = true
      ∧ mainRun w = ([Event.print (PrintMsg.missingKey k0)], 1)
      ∧ (∀ e ∈ (mainRun w).1, e.isNetwork = false ∧ e.isSubprocess = false)
      ∧ (mainRun w).2 ≠ 0 := by
  obtain ⟨k, hkmem, hkm⟩ := hk
  cases hfind : requiredKeys.find? (keyMissing (load_env lines)) with
  | none => exact absurd hkm (List.find?_eq_none.mp hfind k hkmem)
  | some k0 =>
    have hmr := mainRun_missing w lines k0 h1 hfind
    refine ⟨k0, List.mem_of_find?_eq_some hfind, List.find?_some hfind, hmr, ?_, ?_⟩
    · intro e he
      rw [hmr] at he
      have he2 : e = Event.print (PrintMsg.missingKey k0) := by simpa using he
      rw [he2]
      exact ⟨rfl, rfl⟩
    · rw [hmr]
      simp

/-- A run whose configuration lacks `BOT_TOKEN`, used as the witness
input of the C6 theorem. -/
def wC6 : World :=
  { wC2 with configFile := some ["DEVICE=x", "VARIANT=user", "CHAT_ID=1"] }

/-- Witness for the C6 theorem at a concrete configuration missing
`BOT_TOKEN`. -/
theorem missing_required_key_aborts_witness :
    ∃ k0 ∈ requiredKeys, keyMissing (load_env ["DEVICE=x", "VARIANT=user", "CHAT_ID=1"])
        k0 = true
      ∧ mainRun wC6 = ([Event.print (PrintMsg.missingKey k0)], 1)
      ∧ (∀ e ∈ (mainRun wC6).1, e.isNetwork = false ∧ e.isSubprocess = false)
      ∧ (mainRun wC6).2 ≠ 0 :=
  missing_required_key_aborts wC6 ["DEVICE=x", "VARIANT=user", "CHAT_ID=1"] rfl
    ⟨"BOT_TOKEN", by decide, by decide⟩

theorem brunch_mem_preEvents (w : World) (cfg : List (String × Value)) :
    Event.subproc (Cmd.brunch (getStr cfg "DEVICE") (getStr cfg "VARIANT"))
      ∈ preEvents w cfg := by
  unfold preEvents
  simp [List.mem_append]

theorem syncFailed_mem_syncPhase (w : World) (jobs : Nat)
    (hf : w.sync1Exit ≠ 0) (hf2 : w.sync2Exit ≠ 0) (hsend : w.syncSendOk.isSome = true) :
    Event.net (NetOp.editStatus EditMsg.syncFailed) ∈ syncPhase w jobs := by
  unfold syncPhase
  rw [if_pos hf, if_pos hsend]
  have hm : (if (if w.sync1Exit ≠ 0 then w.sync2Exit else w.sync1Exit) = 0
      then EditMsg.syncComplete else EditMsg.syncFailed) = EditMsg.syncFailed := by
    rw [if_pos hf, if_neg hf2]
  rw [hm]
  simp [List.mem_append]

theorem syncPhase_mem_preEvents (w : World) (cfg : List (String × Value))
    (hs : w.args.sync = true) (e : Event)
    (he : e ∈ syncPhase w (if w.cpu_count > 8 then 12 else w.cpu_count)) :
    e ∈ preEvents w cfg := by
  unfold preEvents
  rw [if_pos hs]
  simp only [List.append_assoc, List.mem_append]
  exact Or.inr (Or.inl he)

/-- C8: when sync is enabled and the first sync invocation exits
non-zero, the run performs exactly two sync invocations — the full
invocation followed by the plain forced retry — still launches the
compile child process, derives its exit code solely from the build
evaluation (sync failure is never fatal), and, when the retry also
fails and a status message exists, records the failure by editing the
status message. -/
theorem sync_retry_once_nonfatal (w : World) (lines : List String)
    (h1 : w.configFile = some lines)
    (h2 : requiredKeys.find? (keyMissing (load_env lines)) = none)
    (hs : w.args.sync = true)
    (hf : w.sync1Exit ≠ 0) :
    (mainRun w).1.filter Event.isSyncCmd
        = [Event.subproc (Cmd.repoSync (if w.cpu_count > 8 then 12 else w.cpu_count)),
           Event.subproc Cmd.repoSyncForce]
    ∧ Event.subproc (Cmd.brunch (getStr (load_env lines) "DEVICE")
        (getStr (load_env lines) "VARIANT")) ∈ (mainRun w).1
    ∧ (mainRun w).2
        = (if evaluate_success w.finalLog w.outDir (getStr (load_env lines) "DEVICE") = true
            then 0 else 1)
    ∧ (w.sync2Exit ≠ 0 → w.syncSendOk.isSome = true →
        Event.net (NetOp.editStatus EditMsg.syncFailed) ∈ (mainRun w).1) := by
  rw [mainRun_valid w lines h1 h2, runPipeline_eq]
  dsimp only
  refine ⟨?_, ?_, rfl, ?_⟩
  · rw [List.filter_append, preEvents_filter_sync w (load_env lines) hs hf]
    have hrest : (if evaluate_success w.finalLog w.outDir (getStr (load_env lines) "DEVICE")
          = true
        then packagePhase w (getStr (load_env lines) "DEVICE")
          ++ (if poweroffSet (load_env lines) = true then [Event.shutdown] else [])
        else failPhase w).filter Event.isSyncCmd = [] := by
      by_cases hev : evaluate_success w.finalLog w.outDir
          (getStr (load_env lines) "DEVICE") = true
      · rw [if_pos hev, List.filter_append, packagePhase_no_sync]
        cases hpo : poweroffSet (load_env lines) <;> simp
      · rw [if_neg hev, failPhase_no_sync]
    rw [hrest, List.append_nil]
  · exact List.mem_append_left _ (brunch_mem_preEvents w (load_env lines))
  · intro hf2 hsend
    exact List.mem_append_left _ (syncPhase_mem_preEvents w (load_env lines) hs _
      (syncFailed_mem_syncPhase w _ hf hf2 hsend))

/-- A run with sync enabled whose two sync attempts both fail, used as
the witness input of the C8 theorem. -/
def wC8 : World :=
  { configFile := some ["DEVICE=x", "VARIANT=user", "BOT_TOKEN=t", "CHAT_ID=1"],
    args := { sync := true, clean := false, clean_device := false, disk_optimization := false },
    cpu_count := 4, ioScriptExists := false, sync1Exit := 1, sync2Exit := 1,
    syncSendOk := some 9, buildSendOk := none, polls := [], finalLog := some "",
    outDir := none, errorLogExists := false, pkgFails := false,
    rcloneCopyExit := 0, otaJsonExists := false }

/-- Witness for the C8 theorem at a concrete run whose sync attempts
both fail. -/
theorem sync_retry_once_nonfatal_witness :
    (mainRun wC8).1.filter Event.isSyncCmd
        = [Event.subproc (Cmd.repoSync (if wC8.cpu_count > 8 then 12 else wC8.cpu_count)),
           Event.subproc Cmd.repoSyncForce]
    ∧ Event.subproc (Cmd.brunch
        (getStr (load_env ["DEVICE=x", "VARIANT=user", "BOT_TOKEN=t", "CHAT_ID=1"]) "DEVICE")
        (getStr (load_env ["DEVICE=x", "VARIANT=user", "BOT_TOKEN=t", "CHAT_ID=1"]) "VARIANT"))
        ∈ (mainRun wC8).1
    ∧ (mainRun wC8).2
        = (if evaluate_success wC8.finalLog wC8.outDir
              (getStr (load_env ["DEVICE=x", "VARIANT=user", "BOT_TOKEN=t", "CHAT_ID=1"])
                "DEVICE") = true
            then 0 else 1)
    ∧ (wC8.sync2Exit ≠ 0 → wC8.syncSendOk.isSome = true →
        Event.net (NetOp.editStatus EditMsg.syncFailed) ∈ (mainRun wC8).1) :=
  sync_retry_once_nonfatal wC8 ["DEVICE=x", "VARIANT=user", "BOT_TOKEN=t", "CHAT_ID=1"]
    rfl (by decide) rfl (by decide)

/-- Witness for the amended C3 theorem: the head and last stripping
components applied at concrete quoted values. -/
theorem load_env_value_stripping_witness :
    ('q' : Char) ≠ singleQuote ∧ ('r' : Char) ≠ singleQuote :=
  ⟨(load_env_value_stripping.2.2.2.2.2 (String.mk [singleQuote, 'q', singleQuote]) 'q').1
      (by decide),
   (load_env_value_stripping.2.2.2.2.2 (String.mk [singleQuote, 'q', 'r', singleQuote]) 'r').2
      (by decide)⟩
